import Mathlib

/-!
Verification of `tapiriik/services/PowerTraxx/powertraxx.py` (class
`PowerTraxxService`) against its natural-language specification.

The Python source is shallowly embedded below.  Machine integers and
timestamps are modelled as `Int` (seconds); JSON objects are modelled as
association lists of string keys; fallible paths return `Except`.
Each definition carries a comment pointing at the source lines it embeds.
-/

namespace PowerTraxx

/-- `WaypointType` from the interchange model: the classification tag carried
by each waypoint (only the constructors this service uses). -/
inductive WaypointType
  | Regular
  | Pause
  | Resume
  | Start
  | End
  deriving DecidableEq, Repr

/-- Embeds the per-point tag derivation of `_downloadActivity`
(powertraxx.py lines 253-259): a point with a non-null `Pause` marker is
tagged `Pause`; otherwise, if the previous waypoint exists and was tagged
`Pause`, the point is tagged `Resume`; otherwise `Regular`.  Only the pause
marker of the remote point influences the tag, so a point is modelled as its
marker `Option Unit`. -/
def deriveTag (pause : Option Unit) (lastType : Option WaypointType) : WaypointType :=
  match pause with
  | some _ => WaypointType.Pause
  | none =>
    match lastType with
    | some WaypointType.Pause => WaypointType.Resume
    | _ => WaypointType.Regular

/-- The loop of `_downloadActivity` over `activityData["Points"]`
(lines 249-269), carrying `lastWaypoint`'s tag (initially `None`). -/
def buildTagsGo (lastType : Option WaypointType) : List (Option Unit) → List WaypointType
  | [] => []
  | p :: ps =>
    let t := deriveTag p lastType
    t :: buildTagsGo (some t) ps

/-- Tags of the waypoint stream before the Start/End override. -/
def buildTags (points : List (Option Unit)) : List WaypointType :=
  buildTagsGo none points

/-- Embeds lines 271-275: `activity.Stationary = CountTotalWaypoints() <= 1`;
when not stationary, the first waypoint's tag is overwritten with `Start`
and the last with `End`. -/
def downloadActivityTags (points : List (Option Unit)) : List WaypointType :=
  let tags := buildTags points
  if tags.length ≤ 1 then tags
  else (tags.set 0 WaypointType.Start).set (tags.length - 1) WaypointType.End

theorem buildTagsGo_length (lastType : Option WaypointType) (ps : List (Option Unit)) :
    (buildTagsGo lastType ps).length = ps.length := by
  induction ps generalizing lastType with
  | nil => rfl
  | cons p ps ih => simp [buildTagsGo, ih]

theorem buildTags_length (ps : List (Option Unit)) :
    (buildTags ps).length = ps.length := buildTagsGo_length none ps

/-- C1: in the decode path, the four-point stream with pause markers
`[null, set, null, null]` produces tags `[Start, Pause, Resume, End]`;
in general a point is tagged `Pause` when its marker is non-null, `Resume`
when the marker is null and the preceding waypoint was tagged `Pause`,
`Regular` otherwise; and for a stream of at least two points the first and
last tags are overwritten with `Start` and `End`. -/
theorem C1_waypoint_tagging :
    downloadActivityTags [none, some (), none, none] =
      [WaypointType.Start, WaypointType.Pause, WaypointType.Resume, WaypointType.End]
    ∧ (∀ u lastType, deriveTag (some u) lastType = WaypointType.Pause)
    ∧ (∀ lastType, deriveTag none lastType =
        if lastType = some WaypointType.Pause then WaypointType.Resume
        else WaypointType.Regular)
    ∧ (∀ ps : List (Option Unit), 2 ≤ ps.length →
        (downloadActivityTags ps)[0]? = some WaypointType.Start
        ∧ (downloadActivityTags ps)[ps.length - 1]? = some WaypointType.End) := by
  refine ⟨by decide, fun u lastType => rfl, ?_, ?_⟩
  · intro lastType
    match lastType with
    | none => rfl
    | some WaypointType.Regular => rfl
    | some WaypointType.Pause => rfl
    | some WaypointType.Resume => rfl
    | some WaypointType.Start => rfl
    | some WaypointType.End => rfl
  · intro ps hps
    have hlen : (buildTags ps).length = ps.length := buildTags_length ps
    have hgt : ¬ (buildTags ps).length ≤ 1 := by omega
    have h0 : (0 : Nat) < (buildTags ps).length := by omega
    have hne : (buildTags ps).length - 1 ≠ 0 := by omega
    have hlast : (buildTags ps).length - 1 < ((buildTags ps).set 0 WaypointType.Start).length := by
      simp; omega
    constructor
    · simp only [downloadActivityTags, hgt, if_false]
      rw [List.getElem?_set_ne hne]
      exact List.getElem?_set_self h0
    · simp only [downloadActivityTags, hgt, if_false]
      rw [← hlen]
      exact List.getElem?_set_self hlast

/-- C1 witness: the general Start/End override applied to the concrete
four-point stream of the claim. -/
theorem C1_waypoint_tagging_witness :
    (downloadActivityTags [none, some (), none, none])[0]? = some WaypointType.Start
    ∧ (downloadActivityTags [none, some (), none, none])[([none, some (), none, none] :
        List (Option Unit)).length - 1]? = some WaypointType.End :=
  C1_waypoint_tagging.2.2.2 [none, some (), none, none] (by decide)

/-! ## Token lifecycle (`_getAuthHeaders`, `_getTokenFromResponse`) -/

/-- `UserExceptionType` constants used by this service. -/
inductive UserExceptionType
  | Authorization
  | AccountExpired
  deriving DecidableEq, Repr

/-- `UserException(type, intervention_required=...)` from `tapiriik.services.api`. -/
structure UserException where
  type : UserExceptionType
  intervention_required : Bool
  deriving DecidableEq, Repr

/-- `APIException(msg, block=..., user_exception=...)`; `block` defaults to
`False` and `user_exception` to `None` when not passed. -/
structure APIException where
  msg : String
  block : Bool
  user_exception : Option UserException
  deriving DecidableEq, Repr

/-- The dict returned by `_getTokenFromResponse` (lines 323-327), also the
shape of the entries of `_tokenCache`. -/
structure TokenItem where
  AccessToken : String
  RefreshToken : String
  ExpirationDate : Int
  deriving DecidableEq, Repr

/-- The `serviceRecord.Authorization` dict read at lines 286-287 and 295. -/
structure ServiceRecordAuth where
  AccessToken : String
  RefreshToken : String
  ExpirationDate : Int
  deriving DecidableEq, Repr

/-- The parsed JSON body of a token-endpoint response (lines 319-321). -/
structure TokenResponseJson where
  access_token : String
  refresh_token : String
  expires_in : Int
  deriving DecidableEq, Repr

/-- Embeds `_getTokenFromResponse` (lines 318-328): subtract a 30-second
buffer from `expires_in` and set `ExpirationDate = utcnow() + expires_in`;
`now` is the value of `datetime.utcnow()` in epoch seconds. -/
def getTokenFromResponse (now : Int) (j : TokenResponseJson) : TokenItem :=
  let expires_in := j.expires_in - 30
  { AccessToken := j.access_token
    RefreshToken := j.refresh_token
    ExpirationDate := now + expires_in }

/-- The expiry comparison `exp_date < datetime.utcnow()` of line 289. -/
def expiredCheck (expDate now : Int) : Bool :=
  decide (expDate < now)

/-- Python falsiness of an optional string (`not token` at line 289):
`None` and the empty string are falsy. -/
def pyFalsy : Option String → Bool
  | none => true
  | some s => s == ""

/-- Embeds lines 281-289: `token`/`exp_date` are populated from
`serviceRecord.Authorization` only when the cache lookup returned an entry;
the refresh branch is entered when `not token or exp_date < utcnow()`. -/
def refreshNeeded (now : Int) (cached : Option TokenItem) (auth : ServiceRecordAuth) : Bool :=
  let token : Option String := if cached.isSome then some auth.AccessToken else none
  let expDate : Option Int := if cached.isSome then some auth.ExpirationDate else none
  pyFalsy token ||
    (match expDate with
     | some d => expiredCheck d now
     | none => false)

/-- The token endpoint's response to the refresh-token POST of lines 299-300:
raw status and text, plus the parsed JSON fields consulted on HTTP 200. -/
structure RefreshResponse where
  status_code : Nat
  text : String
  json : TokenResponseJson
  deriving DecidableEq, Repr

/-- A failure escaping `_getAuthHeaders`: either an `APIException` raised
explicitly, or the `AttributeError` raised at line 314, where
`token = tokenItem.AccessToken` performs attribute access on the plain dict
returned by `_getTokenFromResponse`. -/
inductive AuthFailure
  | api (e : APIException)
  | attributeError (msg : String)
  deriving DecidableEq, Repr

deriving instance DecidableEq for Except

/-- Result of one `_getAuthHeaders` call: whether the refresh-token POST was
issued, and either the value of the returned `Authorization` header or the
failure raised. -/
structure AuthOutcome where
  refreshIssued : Bool
  result : Except AuthFailure String
  deriving DecidableEq, Repr

/-- Embeds `_getAuthHeaders` (lines 280-316).  Inputs: `now` =
`datetime.utcnow()`; `cached` = `self._tokenCache.Get(serviceRecord.ExternalID)`;
`auth` = `serviceRecord.Authorization`; `resp` = the token endpoint's response
to the refresh POST (consulted only when the refresh branch is entered).
On a non-200 refresh response, a 4xx status raises a blocking
intervention-required `Authorization` `APIException` (lines 303-306) and any
other status a plain `APIException` (line 307).  On a 200 response the code
stores the new token item, then crashes with `AttributeError` at line 314
(`tokenItem.AccessToken` on a dict).  When no refresh is needed, the header
is built from `serviceRecord.Authorization["AccessToken"]` (lines 286, 316). -/
def getAuthHeaders (now : Int) (cached : Option TokenItem) (auth : ServiceRecordAuth)
    (resp : RefreshResponse) : AuthOutcome :=
  if refreshNeeded now cached auth then
    if resp.status_code ≠ 200 then
      if 400 ≤ resp.status_code ∧ resp.status_code < 500 then
        { refreshIssued := true
          result := Except.error (AuthFailure.api
            { msg := "Could not retrieve refreshed token " ++ toString resp.status_code
                ++ " " ++ resp.text
              block := true
              user_exception := some
                { type := UserExceptionType.Authorization, intervention_required := true } }) }
      else
        { refreshIssued := true
          result := Except.error (AuthFailure.api
            { msg := "Could not retrieve refreshed token " ++ toString resp.status_code
                ++ " " ++ resp.text
              block := false
              user_exception := none }) }
    else
      { refreshIssued := true
        result := Except.error
          (AuthFailure.attributeError "dict object has no attribute AccessToken") }
  else
    { refreshIssued := false
      result := Except.ok ("Bearer " ++ auth.AccessToken) }

/-- C2: when the refresh exchange returns a non-200 status, a 4xx status
yields an `Authorization` error with `intervention_required` and `block=True`,
and any other non-200 status yields a generic non-blocking error. -/
theorem C2_refresh_failure (now : Int) (cached : Option TokenItem) (auth : ServiceRecordAuth)
    (resp : RefreshResponse) (href : refreshNeeded now cached auth = true)
    (hstatus : resp.status_code ≠ 200) :
    ((400 ≤ resp.status_code ∧ resp.status_code < 500) →
      (getAuthHeaders now cached auth resp).result = Except.error (AuthFailure.api
        { msg := "Could not retrieve refreshed token " ++ toString resp.status_code
            ++ " " ++ resp.text
          block := true
          user_exception := some
            { type := UserExceptionType.Authorization, intervention_required := true } }))
    ∧ (¬ (400 ≤ resp.status_code ∧ resp.status_code < 500) →
      (getAuthHeaders now cached auth resp).result = Except.error (AuthFailure.api
        { msg := "Could not retrieve refreshed token " ++ toString resp.status_code
            ++ " " ++ resp.text
          block := false
          user_exception := none })) := by
  constructor
  · intro h
    simp [getAuthHeaders, href, hstatus, h]
  · intro h
    simp [getAuthHeaders, href, hstatus, h]

/-- C2 witness: a 403 refresh response yields the blocking `Authorization`
failure and a 500 refresh response yields the plain non-blocking failure. -/
theorem C2_refresh_failure_witness :
    (getAuthHeaders 0 none ⟨"", "", 0⟩ ⟨403, "forbidden", ⟨"", "", 0⟩⟩).result
      = Except.error (AuthFailure.api
        { msg := "Could not retrieve refreshed token 403 forbidden"
          block := true
          user_exception := some
            { type := UserExceptionType.Authorization, intervention_required := true } })
    ∧ (getAuthHeaders 0 none ⟨"", "", 0⟩ ⟨500, "boom", ⟨"", "", 0⟩⟩).result
      = Except.error (AuthFailure.api
        { msg := "Could not retrieve refreshed token 500 boom"
          block := false
          user_exception := none }) := by
  constructor
  · exact (C2_refresh_failure 0 none ⟨"", "", 0⟩ ⟨403, "forbidden", ⟨"", "", 0⟩⟩
      (by decide) (by decide)).1 (by decide)
  · exact (C2_refresh_failure 0 none ⟨"", "", 0⟩ ⟨500, "boom", ⟨"", "", 0⟩⟩
      (by decide) (by decide)).2 (by decide)

/-- C3: every successful exchange stores `ExpirationDate = now + expires_in - 30`,
and for a declared `expires_in` of 60 seconds the expiry check of line 289
reports the token expired exactly when more than 30 seconds have elapsed
since issuance — the threshold is 30 seconds, not 60. -/
theorem C3_expiry_buffer :
    (∀ (now : Int) (j : TokenResponseJson),
      (getTokenFromResponse now j).ExpirationDate = now + j.expires_in - 30)
    ∧ (∀ (now : Int) (a r : String) (t : Int),
      expiredCheck (getTokenFromResponse now
          { access_token := a, refresh_token := r, expires_in := 60 }).ExpirationDate t
        = decide (now + 30 < t)) := by
  constructor
  · intro now j
    simp [getTokenFromResponse]
    ring
  · intro now a r t
    simp [getTokenFromResponse, expiredCheck]

/-- C4 counterexample: the cache holds an unexpired entry with access token
`"cacheTok"`, while `serviceRecord.Authorization` holds access token
`"recordTok"`; `_getAuthHeaders` performs no exchange but returns the header
built from `"recordTok"` — not from the cached entry's token, which the code
never reads (lines 281-287 use the cache result only as a presence check). -/
theorem C4_cached_token_counterexample :
    (0 : Int) < (TokenItem.mk "cacheTok" "cacheRef" 100).ExpirationDate
    ∧ getAuthHeaders 0 (some ⟨"cacheTok", "cacheRef", 100⟩) ⟨"recordTok", "recordRef", 100⟩
        ⟨200, "", ⟨"", "", 0⟩⟩
      = { refreshIssued := false, result := Except.ok "Bearer recordTok" }
    ∧ (("Bearer recordTok" : String)
        == "Bearer " ++ (TokenItem.mk "cacheTok" "cacheRef" 100).AccessToken) = false := by
  refine ⟨by decide, by decide, by decide⟩

/-- C4 amended: when the token cache holds an entry for the account and the
service record's `Authorization` carries a non-empty access token whose
expiration date is not earlier than the current time, `_getAuthHeaders`
returns a Bearer header built from the service record's access token without
issuing any token exchange; the cached entry's own fields are never read. -/
theorem C4_cached_token_path (now : Int) (cached : TokenItem) (auth : ServiceRecordAuth)
    (resp : RefreshResponse) (htok : (auth.AccessToken == "") = false)
    (hexp : ¬ auth.ExpirationDate < now) :
    getAuthHeaders now (some cached) auth resp
      = { refreshIssued := false, result := Except.ok ("Bearer " ++ auth.AccessToken) } := by
  have hneed : refreshNeeded now (some cached) auth = false := by
    simp [refreshNeeded, pyFalsy, expiredCheck, htok, hexp]
  simp [getAuthHeaders, hneed]

/-- C4 witness for the amended statement at a concrete unexpired state. -/
theorem C4_cached_token_path_witness :
    getAuthHeaders 10 (some ⟨"aTok", "aRef", 50⟩) ⟨"recTok", "recRef", 50⟩
        ⟨200, "", ⟨"", "", 0⟩⟩
      = { refreshIssued := false, result := Except.ok ("Bearer " ++ "recTok") } :=
  C4_cached_token_path 10 ⟨"aTok", "aRef", 50⟩ ⟨"recTok", "recRef", 50⟩
    ⟨200, "", ⟨"", "", 0⟩⟩ (by decide) (by decide)

/-! ## Activity types and sport mappings -/

/-- The `ActivityType` constants of the interchange model that this service
references (the values are non-empty strings in the source, hence always
truthy in the `if not _type` check of line 124). -/
inductive ActivityType
  | Running
  | Cycling
  | MountainBiking
  | Walking
  | Hiking
  | Snowboarding
  | DownhillSkiing
  | CrossCountrySkiing
  | Skating
  | Swimming
  | Elliptical
  | Other
  deriving DecidableEq, Repr

/-- Embeds `_activityMappings` (lines 36-50): powertraxx sport-type string →
common activity type. -/
def activityMappings : List (String × ActivityType) :=
  [("run", ActivityType.Running),
   ("bicycle", ActivityType.Cycling),
   ("racingbicycle", ActivityType.Cycling),
   ("mountainbike", ActivityType.MountainBiking),
   ("walking", ActivityType.Walking),
   ("hike", ActivityType.Hiking),
   ("snowboard", ActivityType.Snowboarding),
   ("skialpin", ActivityType.DownhillSkiing),
   ("classicskiing", ActivityType.CrossCountrySkiing),
   ("skating", ActivityType.Skating),
   ("swim", ActivityType.Swimming),
   ("elliptical", ActivityType.Elliptical),
   ("other", ActivityType.Other)]

/-- Embeds lines 123-125 of `DownloadActivityList`:
`_type = self._activityMappings.get(item['SportType']); if not _type:
_type = ActivityType.Other`. -/
def sportTypeOf (s : String) : ActivityType :=
  match activityMappings.lookup s with
  | some t => t
  | none => ActivityType.Other

/-- Embeds `_reverseActivityMappings` (lines 53-66): common activity type →
powertraxx numeric sport-type code. -/
def reverseActivityMappings : ActivityType → Int
  | ActivityType.Running => 4
  | ActivityType.Cycling => 3
  | ActivityType.Walking => 9
  | ActivityType.MountainBiking => 2
  | ActivityType.Hiking => 5
  | ActivityType.CrossCountrySkiing => 12
  | ActivityType.DownhillSkiing => 13
  | ActivityType.Snowboarding => 22
  | ActivityType.Skating => 11
  | ActivityType.Swimming => 6
  | ActivityType.Elliptical => 10
  | ActivityType.Other => 99

theorem lookup_eq_none_of_not_mem {β : Type} (s : String) (l : List (String × β))
    (h : s ∉ l.map Prod.fst) : l.lookup s = none := by
  induction l with
  | nil => rfl
  | cons p l ih =>
    simp only [List.map_cons, List.mem_cons, not_or] at h
    have hne : (s == p.1) = false := by
      simp [h.1]
    simp [List.lookup, hne, ih h.2]

/-- C8: the forward mapping resolves each of the thirteen known powertraxx
sport-type codes to its table entry, and every string absent from the table
maps to `Other`. -/
theorem C8_forward_sport_mapping :
    sportTypeOf "run" = ActivityType.Running
    ∧ sportTypeOf "bicycle" = ActivityType.Cycling
    ∧ sportTypeOf "racingbicycle" = ActivityType.Cycling
    ∧ sportTypeOf "mountainbike" = ActivityType.MountainBiking
    ∧ sportTypeOf "walking" = ActivityType.Walking
    ∧ sportTypeOf "hike" = ActivityType.Hiking
    ∧ sportTypeOf "snowboard" = ActivityType.Snowboarding
    ∧ sportTypeOf "skialpin" = ActivityType.DownhillSkiing
    ∧ sportTypeOf "classicskiing" = ActivityType.CrossCountrySkiing
    ∧ sportTypeOf "skating" = ActivityType.Skating
    ∧ sportTypeOf "swim" = ActivityType.Swimming
    ∧ sportTypeOf "elliptical" = ActivityType.Elliptical
    ∧ sportTypeOf "other" = ActivityType.Other
    ∧ (∀ s : String, s ∉ activityMappings.map Prod.fst → sportTypeOf s = ActivityType.Other) := by
  refine ⟨by decide, by decide, by decide, by decide, by decide, by decide, by decide,
    by decide, by decide, by decide, by decide, by decide, by decide, ?_⟩
  intro s hs
  unfold sportTypeOf
  rw [lookup_eq_none_of_not_mem s activityMappings hs]

/-- C8 witness: the unknown code `"zumba"` falls back to `Other`. -/
theorem C8_forward_sport_mapping_witness :
    sportTypeOf "zumba" = ActivityType.Other :=
  C8_forward_sport_mapping.2.2.2.2.2.2.2.2.2.2.2.2.2 "zumba" (by decide)

/-! ## Encode path, no-GPS (summary) mode -/

/-- The statistics consulted by the no-GPS upload mode.  Each field is the
statistic's `.Value`, already expressed in the unit the code converts to
(`asUnits(Seconds)` for the times, `asUnits(Meters)` for the distance);
`none` models `Value is None` / `Distance is None`. -/
structure ActivityStats where
  TimerTime : Option Int
  MovingTime : Option Int
  Distance : Option Int
  deriving DecidableEq, Repr

/-- The canonical-activity fields consulted by the no-GPS upload mode.
`StartTime`/`EndTime` are epoch seconds; `StartTimeIso` is the string
`activity.StartTime.isoformat()`. -/
structure ActivityM where
  Name : String
  Notes : String
  StartTimeIso : String
  Private : Bool
  Stats : ActivityStats
  StartTime : Int
  EndTime : Int
  «Type» : ActivityType
  deriving DecidableEq, Repr

/-- Embeds `_resolveDuration` (lines 330-335): prefer `TimerTime`, then
`MovingTime`, then `(EndTime - StartTime).total_seconds()`. -/
def resolveDuration (obj : ActivityM) : Int :=
  match obj.Stats.TimerTime with
  | some t => t
  | none =>
    match obj.Stats.MovingTime with
    | some m => m
    | none => obj.EndTime - obj.StartTime

/-- Embeds `_resolvePause` (lines 337-342): `TimerTime - MovingTime` when
both are present, else `0`. -/
def resolvePause (obj : ActivityM) : Int :=
  match obj.Stats.TimerTime, obj.Stats.MovingTime with
  | some t, some m => t - m
  | _, _ => 0

/-- C6: the resolved duration is the timer-time statistic when present, else
the moving-time statistic when present, else `EndTime - StartTime`; the
resolved pause is `timerTime - movingTime` when both statistics are present
and exactly zero in every other case, including when only one of the two is
present. -/
theorem C6_duration_pause_resolution :
    (∀ (t : Int) (mt : Option Int) (n no iso : String) (p : Bool) (d : Option Int)
       (s e : Int) (ty : ActivityType),
      resolveDuration ⟨n, no, iso, p, ⟨some t, mt, d⟩, s, e, ty⟩ = t)
    ∧ (∀ (m : Int) (n no iso : String) (p : Bool) (d : Option Int) (s e : Int)
        (ty : ActivityType),
      resolveDuration ⟨n, no, iso, p, ⟨none, some m, d⟩, s, e, ty⟩ = m)
    ∧ (∀ (n no iso : String) (p : Bool) (d : Option Int) (s e : Int) (ty : ActivityType),
      resolveDuration ⟨n, no, iso, p, ⟨none, none, d⟩, s, e, ty⟩ = e - s)
    ∧ (∀ (t m : Int) (n no iso : String) (p : Bool) (d : Option Int) (s e : Int)
        (ty : ActivityType),
      resolvePause ⟨n, no, iso, p, ⟨some t, some m, d⟩, s, e, ty⟩ = t - m)
    ∧ (∀ (t : Int) (n no iso : String) (p : Bool) (d : Option Int) (s e : Int)
        (ty : ActivityType),
      resolvePause ⟨n, no, iso, p, ⟨some t, none, d⟩, s, e, ty⟩ = 0)
    ∧ (∀ (m : Int) (n no iso : String) (p : Bool) (d : Option Int) (s e : Int)
        (ty : ActivityType),
      resolvePause ⟨n, no, iso, p, ⟨none, some m, d⟩, s, e, ty⟩ = 0)
    ∧ (∀ (n no iso : String) (p : Bool) (d : Option Int) (s e : Int) (ty : ActivityType),
      resolvePause ⟨n, no, iso, p, ⟨none, none, d⟩, s, e, ty⟩ = 0) :=
  ⟨fun _ _ _ _ _ _ _ _ _ _ => rfl, fun _ _ _ _ _ _ _ _ _ => rfl,
   fun _ _ _ _ _ _ _ _ => rfl, fun _ _ _ _ _ _ _ _ _ _ => rfl,
   fun _ _ _ _ _ _ _ _ _ => rfl, fun _ _ _ _ _ _ _ _ _ => rfl,
   fun _ _ _ _ _ _ _ _ => rfl⟩

/-- JSON values, as produced by `json.dumps` applied to the payload dicts:
a Python tuple serializes as a JSON array. -/
inductive JsonVal
  | num (n : Int)
  | str (s : String)
  | bool (b : Bool)
  | arr (xs : List JsonVal)
  deriving Repr

/-- Discriminator: is this JSON value a single number? -/
def JsonVal.isNum : JsonVal → Bool
  | JsonVal.num _ => true
  | _ => false

/-- Embeds the no-GPS `activity_data` dict of `UploadActivity`
(lines 145-153).  Line 153 reads
`activity_data["distance"] = activity.Stats.Distance.asUnits(Meters).Value,`
— the trailing comma makes the stored value the one-element tuple
`(value,)`, which `json.dumps` serializes as a one-element array. -/
def noGpsActivityData (a : ActivityM) : List (String × JsonVal) :=
  [("name", JsonVal.str a.Name),
   ("comment", JsonVal.str a.Notes),
   ("date", JsonVal.str a.StartTimeIso),
   ("share", JsonVal.bool (!a.Private)),
   ("duration", JsonVal.num (resolveDuration a)),
   ("pause", JsonVal.num (resolvePause a)),
   ("sportType", JsonVal.num (reverseActivityMappings a.«Type»))]
  ++ (match a.Stats.Distance with
      | some d => [("distance", JsonVal.arr [JsonVal.num d])]
      | none => [])

/-- C7: evaluating the no-GPS payload at an activity carrying a 100 m
distance statistic, the emitted `distance` field is the one-element array
`[100]`, not the single numeric value `100` the specification describes —
the trailing comma at line 153 tuples the value. -/
theorem C7_distance_field_is_tuple :
    (noGpsActivityData
        ⟨"Morning Run", "", "2020-01-01T00:00:00", false, ⟨none, none, some 100⟩, 0, 600,
          ActivityType.Running⟩).lookup "distance"
      = some (JsonVal.arr [JsonVal.num 100])
    ∧ JsonVal.isNum (JsonVal.arr [JsonVal.num 100]) = false := by
  refine ⟨rfl, rfl⟩

/-! ## HTTP response handling of the upload and download calls -/

/-- The provider's response to the `POST /api/activity` call: status, raw
text, and the `AcId` field of the parsed JSON body (read only on 200). -/
structure UploadResponse where
  status_code : Nat
  text : String
  AcId : String
  deriving DecidableEq, Repr

/-- Embeds the response handling of the no-GPS branch of `UploadActivity`
(lines 160-166): 401 raises the blocking intervention-required
`AccountExpired` exception; any other non-200 raises a plain exception;
200 returns the provider's activity id. -/
def uploadRespondNoGps (resp : UploadResponse) : Except APIException String :=
  if resp.status_code ≠ 200 then
    if resp.status_code = 401 then
      Except.error
        { msg := "ST.mobi trial expired"
          block := true
          user_exception := some
            { type := UserExceptionType.AccountExpired, intervention_required := true } }
    else
      Except.error
        { msg := "Unable to upload activity " ++ resp.text
          block := false
          user_exception := none }
  else Except.ok resp.AcId

/-- Embeds the response handling of the GPS branch of `UploadActivity`
(lines 214-220), textually identical to the no-GPS branch. -/
def uploadRespondGps (resp : UploadResponse) : Except APIException String :=
  if resp.status_code ≠ 200 then
    if resp.status_code = 401 then
      Except.error
        { msg := "ST.mobi trial expired"
          block := true
          user_exception := some
            { type := UserExceptionType.AccountExpired, intervention_required := true } }
    else
      Except.error
        { msg := "Unable to upload activity " ++ resp.text
          block := false
          user_exception := none }
  else Except.ok resp.AcId

/-- The provider's response to `GET /api/activity/{id}`: status and text
(the parsed body is only consumed after the status check passes). -/
structure DetailResponse where
  status_code : Nat
  text : String
  deriving DecidableEq, Repr

/-- Embeds the status handling of `_downloadActivity` (lines 232-238):
401 or 403 raises the blocking intervention-required `Authorization`
exception; any other non-200 raises a plain exception. -/
def downloadActivityRespond (activityId : String) (resp : DetailResponse) :
    Except APIException Unit :=
  if resp.status_code ≠ 200 then
    if resp.status_code = 401 ∨ resp.status_code = 403 then
      Except.error
        { msg := "No authorization to download activity" ++ activityId
          block := true
          user_exception := some
            { type := UserExceptionType.Authorization, intervention_required := true } }
    else
      Except.error
        { msg := "Unable to download activity " ++ activityId ++ " response "
            ++ "<Response [" ++ toString resp.status_code ++ "]>" ++ " " ++ resp.text
          block := false
          user_exception := none }
  else Except.ok ()

/-- C5: a 401 in either upload mode raises the blocking intervention-required
`AccountExpired` exception, and a 401 or 403 in the download path raises the
blocking intervention-required `Authorization` exception; in every such case
the call raises instead of returning a result. -/
theorem C5_unauthorized_blocking :
    (∀ (text acId : String),
      uploadRespondNoGps { status_code := 401, text := text, AcId := acId }
        = Except.error
          { msg := "ST.mobi trial expired"
            block := true
            user_exception := some
              { type := UserExceptionType.AccountExpired, intervention_required := true } })
    ∧ (∀ (text acId : String),
      uploadRespondGps { status_code := 401, text := text, AcId := acId }
        = Except.error
          { msg := "ST.mobi trial expired"
            block := true
            user_exception := some
              { type := UserExceptionType.AccountExpired, intervention_required := true } })
    ∧ (∀ (activityId text : String),
      downloadActivityRespond activityId { status_code := 401, text := text }
        = Except.error
          { msg := "No authorization to download activity" ++ activityId
            block := true
            user_exception := some
              { type := UserExceptionType.Authorization, intervention_required := true } })
    ∧ (∀ (activityId text : String),
      downloadActivityRespond activityId { status_code := 403, text := text }
        = Except.error
          { msg := "No authorization to download activity" ++ activityId
            block := true
            user_exception := some
              { type := UserExceptionType.Authorization, intervention_required := true } }) := by
  refine ⟨fun text acId => rfl, fun text acId => rfl, fun activityId text => ?_,
    fun activityId text => ?_⟩
  · simp [downloadActivityRespond]
  · simp [downloadActivityRespond]

/-! ## Encode path, GPS mode: the per-waypoint point records -/

/-- The `Location` of a flattened waypoint; numeric attributes are `none`
when unset. -/
structure LocationM where
  Latitude : Option Int
  Longitude : Option Int
  Altitude : Option Int
  deriving DecidableEq, Repr

/-- A flattened waypoint as consumed by the GPS branch of `UploadActivity`
(lines 186-206); `Timestamp` is the epoch value that
`time.mktime(wp.Timestamp.astimezone(utc).timetuple())` produces.  Numeric
values are modelled as `Int`: Python truthiness of a number is `≠ 0`, and a
`datetime` object is always truthy, so `Timestamp` counts as truthy exactly
when it is set. -/
structure WaypointM where
  Location : Option LocationM
  Timestamp : Option Int
  HR : Option Int
  Speed : Option Int
  Distance : Option Int
  Cadence : Option Int
  RunCadence : Option Int
  Power : Option Int
  deriving DecidableEq, Repr

/-- Python truthiness of an optional number: `None` and `0` are falsy. -/
def numTruthy : Option Int → Bool
  | none => false
  | some n => n != 0

/-- One `if wp.X: item["key"] = wp.X` statement of lines 195-206. -/
def truthyField (key : String) (v : Option Int) : List (String × Int) :=
  match v with
  | some n => if n != 0 then [(key, n)] else []
  | none => []

/-- Lines 188-190: `if wp.Location and wp.Location.Latitude and
wp.Location.Longitude: item["lat"] = ...; item["lon"] = ...`. -/
def latLonFields (wp : WaypointM) : List (String × Int) :=
  match wp.Location with
  | some loc =>
    match loc.Latitude, loc.Longitude with
    | some la, some lo => if la != 0 && lo != 0 then [("lat", la), ("lon", lo)] else []
    | _, _ => []
  | none => []

/-- Lines 191-192: `if wp.Location and wp.Location.Altitude:
item["ele"] = wp.Location.Altitude`. -/
def eleField (wp : WaypointM) : List (String × Int) :=
  match wp.Location with
  | some loc =>
    match loc.Altitude with
    | some al => if al != 0 then [("ele", al)] else []
    | none => []
  | none => []

/-- Lines 193-194: `if wp.Timestamp: item["timestampValue"] = ...`. -/
def timestampField (wp : WaypointM) : List (String × Int) :=
  match wp.Timestamp with
  | some t => [("timestampValue", t)]
  | none => []

/-- Embeds the construction of one point record `item` (lines 187-206),
keeping the source's insertion order. -/
def pointRecord (wp : WaypointM) : List (String × Int) :=
  latLonFields wp ++ eleField wp ++ timestampField wp
  ++ truthyField "heartrate" wp.HR
  ++ truthyField "speed" wp.Speed
  ++ truthyField "distance" wp.Distance
  ++ truthyField "cadence" wp.Cadence
  ++ truthyField "steps" wp.RunCadence
  ++ truthyField "power" wp.Power

/-- C9 counterexample: a waypoint whose heart rate is present with value `0`
(alongside a location and timestamp) produces a point record with no
`heartrate` field at all — `if wp.HR:` is false for `0` — contradicting the
claim that a present-but-zero field is included. -/
theorem C9_zero_field_counterexample :
    (WaypointM.mk (some ⟨some 1, some 2, some 3⟩) (some 1000) (some 0) none none none
        none none).HR = some 0
    ∧ pointRecord
        ⟨some ⟨some 1, some 2, some 3⟩, some 1000, some 0, none, none, none, none, none⟩
      = [("lat", 1), ("lon", 2), ("ele", 3), ("timestampValue", 1000)]
    ∧ ((pointRecord
          ⟨some ⟨some 1, some 2, some 3⟩, some 1000, some 0, none, none, none, none,
            none⟩).map Prod.fst).contains "heartrate" = false := by
  refine ⟨rfl, by decide, by decide⟩

theorem map_fst_truthyField (key : String) (v : Option Int) :
    (truthyField key v).map Prod.fst = if numTruthy v then [key] else [] := by
  cases v with
  | none => rfl
  | some n => by_cases h : n = 0 <;> simp [truthyField, numTruthy, h]

theorem map_fst_latLonFields (wp : WaypointM) :
    (latLonFields wp).map Prod.fst =
      if (wp.Location.map fun loc => numTruthy loc.Latitude && numTruthy loc.Longitude).getD
          false
        then ["lat", "lon"] else [] := by
  obtain ⟨loc?, ts, hr, sp, di, ca, rc, pw⟩ := wp
  cases loc? with
  | none => rfl
  | some loc =>
    obtain ⟨la?, lo?, al?⟩ := loc
    cases la? with
    | none => simp [latLonFields, numTruthy]
    | some la =>
      cases lo? with
      | none => simp [latLonFields, numTruthy]
      | some lo =>
        by_cases hla : la = 0 <;> by_cases hlo : lo = 0 <;>
          simp [latLonFields, numTruthy, hla, hlo]

theorem map_fst_eleField (wp : WaypointM) :
    (eleField wp).map Prod.fst =
      if (wp.Location.map fun loc => numTruthy loc.Altitude).getD false
        then ["ele"] else [] := by
  obtain ⟨loc?, ts, hr, sp, di, ca, rc, pw⟩ := wp
  cases loc? with
  | none => rfl
  | some loc =>
    obtain ⟨la?, lo?, al?⟩ := loc
    cases al? with
    | none => simp [eleField, numTruthy]
    | some al => by_cases hal : al = 0 <;> simp [eleField, numTruthy, hal]

theorem map_fst_timestampField (wp : WaypointM) :
    (timestampField wp).map Prod.fst = if wp.Timestamp.isSome then ["timestampValue"] else [] := by
  obtain ⟨loc?, ts, hr, sp, di, ca, rc, pw⟩ := wp
  cases ts with
  | none => rfl
  | some t => rfl

/-- C9 amended: a point record carries exactly those fields whose waypoint
values are truthy in Python's sense — set and non-zero for numerics (with
`lat`/`lon` requiring both to be set and non-zero, and `ele` requiring the
location to be present), and merely set for the timestamp; a field that is
`None` or `0` is omitted. -/
theorem C9_truthy_fields :
    ∀ wp : WaypointM,
      (pointRecord wp).map Prod.fst =
        (if (wp.Location.map fun loc =>
              numTruthy loc.Latitude && numTruthy loc.Longitude).getD false
          then ["lat", "lon"] else [])
        ++ (if (wp.Location.map fun loc => numTruthy loc.Altitude).getD false
            then ["ele"] else [])
        ++ (if wp.Timestamp.isSome then ["timestampValue"] else [])
        ++ (if numTruthy wp.HR then ["heartrate"] else [])
        ++ (if numTruthy wp.Speed then ["speed"] else [])
        ++ (if numTruthy wp.Distance then ["distance"] else [])
        ++ (if numTruthy wp.Cadence then ["cadence"] else [])
        ++ (if numTruthy wp.RunCadence then ["steps"] else [])
        ++ (if numTruthy wp.Power then ["power"] else []) := by
  intro wp
  simp only [pointRecord, List.map_append, map_fst_latLonFields, map_fst_eleField,
    map_fst_timestampField, map_fst_truthyField]

end PowerTraxx
